import Mathlib

set_option maxRecDepth 8000
set_option maxHeartbeats 1000000

/-! Verification of the RG10 RGGB camera scripts: the 10-bit sample codec,
the 8-to-10-bit rescale and its lookup table, the RGGB Bayer frame
generator, and the I2C register-write / driver-lifecycle sequencing of
`config_camera_rg10_rggb_output.py` and `send_rg10_to_camera.py`. -/

/-- Function `to_rg10_bytes` of `generate_rg10_rggb_file.py` and
`generate_rg10_rggb_binary.py`: pack a 10-bit value into two bytes
(little endian, the low 2 bits of the sample in the high byte); the
out-of-range `ValueError` is modelled as `none`.  Python's `value & 0xFF`
and `(value >> 8) & 0x03` act on a value known non-negative in the
`some` branch, hence the `Int.toNat` bridge to `Nat` bit operations. -/
def to_rg10_bytes (value : Int) : Option (List Nat) :=
  if 0 ≤ value ∧ value ≤ 1023 then
    some [value.toNat &&& 0xFF, (value.toNat >>> 8) &&& 0x03]
  else
    none

/-- Function `convert_10bit_to_16bit` of `config_camera_rg10_rggb_output.py`
and `send_rg10_to_camera.py`: the same packing, returned as an
`(lsb, msb)` tuple; the out-of-range `ValueError` is modelled as `none`. -/
def convert_10bit_to_16bit (value : Int) : Option (Nat × Nat) :=
  if 0 ≤ value ∧ value ≤ 1023 then
    some (value.toNat &&& 0xFF, (value.toNat >>> 8) &&& 0x03)
  else
    none

/-- Modelled from the spec: the repository has no decoder under `src/`;
spec 4.1 (`unpack`) and 6 (raw file format) give the inverse formula
`value = (msb & 0x03) << 8 | lsb`. -/
def unpack (lsb msb : Nat) : Nat :=
  ((msb &&& 0x03) <<< 8) ||| lsb

/-- Function `convert_8bit_to_10bit_16bit` of `rgb8_to_rgb10.py`: rounded
linear rescale `(value * 1023 + 127) // 255` masked to ten bits, with the
out-of-range `ValueError` modelled as `none`. -/
def convert_8bit_to_10bit_16bit (value : Int) : Option Nat :=
  if 0 ≤ value ∧ value ≤ 255 then
    some (((value.toNat * 1023 + 127) / 255) &&& 0x3FF)
  else
    none

/-- The module-level table `_LOOKUP_TABLE_16BIT` of `rgb8_to_rgb10.py`,
built once at module initialization:
`[convert_8bit_to_10bit_16bit(i) for i in range(256)]`. -/
def LOOKUP_TABLE_16BIT : List (Option Nat) :=
  (List.range 256).map fun i : Nat => convert_8bit_to_10bit_16bit (↑i)

/-- Function `convert_8bit_to_10bit_lut_16bit` of `rgb8_to_rgb10.py`:
table lookup; an index outside the table (Python `IndexError`) is
modelled as `none`. -/
def convert_8bit_to_10bit_lut_16bit (value : Nat) : Option Nat :=
  (LOOKUP_TABLE_16BIT.get? value).bind id

/-- Packing a 10-bit sample never loses information: unpacking with the
documented inverse recovers the sample. -/
theorem unpack_pack_nat (n : Nat) (h : n < 1024) :
    unpack (n &&& 0xFF) ((n >>> 8) &&& 0x03) = n := by
  revert h
  revert n
  decide

/-- Packing a value in range always succeeds, under both packers. -/
theorem convert_10bit_natCast (n : Nat) (h : n ≤ 1023) :
    convert_10bit_to_16bit (↑n) = some (n &&& 0xFF, (n >>> 8) &&& 0x03) := by
  have h0 : (0 : Int) ≤ ↑n := Int.ofNat_nonneg n
  have h1 : (↑n : Int) ≤ 1023 := by exact_mod_cast h
  simp [convert_10bit_to_16bit, h0, h1]

/-- C1: for every integer v in [0, 1023], packing v into a byte pair
(lsb = v & 0xFF, msb = (v >> 8) & 0x03) and unpacking that pair with
value = (msb & 0x03) << 8 | lsb yields v again. -/
theorem c1_pack_unpack_roundtrip (v : Int) (h0 : 0 ≤ v) (h1 : v ≤ 1023) :
    convert_10bit_to_16bit v = some (v.toNat &&& 0xFF, (v.toNat >>> 8) &&& 0x03)
    ∧ to_rg10_bytes v = some [v.toNat &&& 0xFF, (v.toNat >>> 8) &&& 0x03]
    ∧ (↑(unpack (v.toNat &&& 0xFF) ((v.toNat >>> 8) &&& 0x03)) : Int) = v := by
  refine ⟨by simp [convert_10bit_to_16bit, h0, h1], by simp [to_rg10_bytes, h0, h1], ?_⟩
  have hlt : v.toNat < 1024 := by omega
  rw [unpack_pack_nat v.toNat hlt, Int.toNat_of_nonneg h0]

/-- Witness for C1 at v = 1000. -/
theorem c1_pack_unpack_roundtrip_witness :
    convert_10bit_to_16bit 1000 = some (232, 3)
    ∧ to_rg10_bytes 1000 = some [232, 3]
    ∧ (↑(unpack 232 3) : Int) = 1000 :=
  c1_pack_unpack_roundtrip 1000 (by decide) (by decide)

/-- C2 counterexample: the rescale maps 128 to 514, not to the claimed 512
(and 514 is also what the claimed formula (128 * 1023 + 127) // 255 gives). -/
theorem c2_rescale_128_counterexample :
    convert_8bit_to_10bit_16bit 128 = some 514
    ∧ (128 * 1023 + 127) / 255 = 514
    ∧ (514 : Nat) ≠ 512 := by
  decide

/-- C2 (amended): for every v8 in [0, 255] the rescale computes
(v8 * 1023 + 127) // 255, and its exact fixed points are 0 to 0,
128 to 514 and 255 to 1023. -/
theorem c2_rescale_formula_and_fixed_points (n : Nat) (h : n < 256) :
    convert_8bit_to_10bit_16bit (↑n) = some ((n * 1023 + 127) / 255)
    ∧ convert_8bit_to_10bit_16bit 0 = some 0
    ∧ convert_8bit_to_10bit_16bit 128 = some 514
    ∧ convert_8bit_to_10bit_16bit 255 = some 1023 := by
  revert h
  revert n
  decide

/-- Witness for C2 at v8 = 200. -/
theorem c2_rescale_formula_and_fixed_points_witness :
    convert_8bit_to_10bit_16bit ((200 : Nat) : Int) = some ((200 * 1023 + 127) / 255)
    ∧ convert_8bit_to_10bit_16bit 0 = some 0
    ∧ convert_8bit_to_10bit_16bit 128 = some 514
    ∧ convert_8bit_to_10bit_16bit 255 = some 1023 :=
  c2_rescale_formula_and_fixed_points 200 (by decide)

/-- C8: both packers fail (raise, modelled as `none`) exactly on values
outside [0, 1023] — in particular on -1 and on 1024 — and succeed on
every value inside the range. -/
theorem c8_pack_range_validation :
    (∀ v : Int, (to_rg10_bytes v = none ↔ (v < 0 ∨ 1023 < v))
      ∧ (convert_10bit_to_16bit v = none ↔ (v < 0 ∨ 1023 < v))
      ∧ ((to_rg10_bytes v).isSome ↔ (0 ≤ v ∧ v ≤ 1023))
      ∧ ((convert_10bit_to_16bit v).isSome ↔ (0 ≤ v ∧ v ≤ 1023)))
    ∧ to_rg10_bytes (-1) = none ∧ to_rg10_bytes 1024 = none
    ∧ convert_10bit_to_16bit (-1) = none ∧ convert_10bit_to_16bit 1024 = none := by
  refine ⟨fun v => ?_, by decide, by decide, by decide, by decide⟩
  unfold to_rg10_bytes convert_10bit_to_16bit
  by_cases hv : 0 ≤ v ∧ v ≤ 1023
  · simp [hv]
    try omega
  · simp [hv]
    try omega

/-- C10: the precomputed 256-entry lookup table agrees with the direct
arithmetic implementation on every input in [0, 255], and the direct
implementation succeeds there. -/
theorem c10_lut_agrees_with_direct (v : Nat) (h : v < 256) :
    convert_8bit_to_10bit_lut_16bit v = convert_8bit_to_10bit_16bit (↑v)
    ∧ (convert_8bit_to_10bit_16bit (↑v)).isSome = true := by
  constructor
  · unfold convert_8bit_to_10bit_lut_16bit LOOKUP_TABLE_16BIT
    rw [List.get?_map, List.get?_range h]
    rfl
  · have h0 : (0 : Int) ≤ ↑v := Int.ofNat_nonneg v
    have h1 : (↑v : Int) ≤ 255 := by exact_mod_cast Nat.lt_succ_iff.mp h
    simp [convert_8bit_to_10bit_16bit, h0, h1]

/-- Witness for C10 at v = 37. -/
theorem c10_lut_agrees_with_direct_witness :
    convert_8bit_to_10bit_lut_16bit 37 = convert_8bit_to_10bit_16bit ((37 : Nat) : Int)
    ∧ (convert_8bit_to_10bit_16bit ((37 : Nat) : Int)).isSome = true :=
  c10_lut_agrees_with_direct 37 (by decide)

/-- The frame-generation loop in `main` of `generate_rg10_rggb_file.py`
(and the `binary` mode of `generate_rg10_rggb_binary.py`): row-major
double loop appending `to_rg10_bytes` of the RGGB-parity-selected channel
to a byte buffer; a `ValueError` raised mid-loop aborts the whole
generation (modelled by `Option.bind` threading). -/
def imageData (R G B : Int) (WIDTH HEIGHT : Nat) : Option (List Nat) :=
  (List.range HEIGHT).foldl
    (fun acc y =>
      (List.range WIDTH).foldl
        (fun acc2 x =>
          acc2.bind fun bytes =>
            (to_rg10_bytes (if y % 2 = 0 then (if x % 2 = 0 then R else G)
                            else (if x % 2 = 0 then G else B))).map
              fun pair => bytes ++ pair)
        acc)
    (some [])

/-- A fold that appends `g a` for each element, threaded through `Option`,
is the concatenation of the `g a`. -/
theorem foldl_bind_append {α β : Type} (step : Option (List β) → α → Option (List β))
    (g : α → List β) (l : List α)
    (h : ∀ a ∈ l, ∀ acc : List β, step (some acc) a = some (acc ++ g a)) :
    ∀ acc : List β, l.foldl step (some acc) = some (acc ++ l.flatMap g) := by
  induction l with
  | nil => intro acc; simp
  | cons a t ih =>
    intro acc
    rw [List.foldl_cons, h a (List.mem_cons_self a t) acc,
      ih (fun b hb acc2 => h b (List.mem_cons_of_mem a hb) acc2)]
    simp

/-- The length of a concatenation of constant-length blocks. -/
theorem length_flatMap_const {α β : Type} (l : List α) (f : α → List β) (k : Nat)
    (h : ∀ a ∈ l, (f a).length = k) : (l.flatMap f).length = l.length * k := by
  induction l with
  | nil => simp
  | cons a t ih =>
    rw [List.flatMap_cons, List.length_append, h a (List.mem_cons_self a t),
      ih (fun b hb => h b (List.mem_cons_of_mem a hb)), List.length_cons]
    ring

/-- C4: for channels in [0, 1023] the generator succeeds and emits, in
row-major pixel order, the two-byte little-endian packing of the
RGGB-parity-selected channel for each pixel, for a total of exactly
width * height * 2 bytes. -/
theorem c4_frame_layout (R G B : Int) (W H : Nat)
    (hR0 : 0 ≤ R) (hR1 : R ≤ 1023) (hG0 : 0 ≤ G) (hG1 : G ≤ 1023)
    (hB0 : 0 ≤ B) (hB1 : B ≤ 1023) :
    ∃ bs : List Nat,
      imageData R G B W H = some bs
      ∧ bs = ((List.range H).flatMap fun y => (List.range W).flatMap fun x =>
          [(if y % 2 = 0 then (if x % 2 = 0 then R else G)
            else (if x % 2 = 0 then G else B)).toNat &&& 0xFF,
           ((if y % 2 = 0 then (if x % 2 = 0 then R else G)
             else (if x % 2 = 0 then G else B)).toNat >>> 8) &&& 0x03])
      ∧ bs.length = W * H * 2 := by
  have hpack : ∀ v : Int, 0 ≤ v → v ≤ 1023 →
      to_rg10_bytes v = some [v.toNat &&& 0xFF, (v.toNat >>> 8) &&& 0x03] := by
    intro v h0 h1
    simp [to_rg10_bytes, h0, h1]
  have hcolor : ∀ x y : Nat,
      to_rg10_bytes (if y % 2 = 0 then (if x % 2 = 0 then R else G)
                     else (if x % 2 = 0 then G else B))
        = some [(if y % 2 = 0 then (if x % 2 = 0 then R else G)
                 else (if x % 2 = 0 then G else B)).toNat &&& 0xFF,
                ((if y % 2 = 0 then (if x % 2 = 0 then R else G)
                  else (if x % 2 = 0 then G else B)).toNat >>> 8) &&& 0x03] := by
    intro x y
    apply hpack <;> split <;> split <;> assumption
  have hrow : ∀ y : Nat, ∀ acc : List Nat,
      (List.range W).foldl
        (fun acc2 x =>
          acc2.bind fun bytes =>
            (to_rg10_bytes (if y % 2 = 0 then (if x % 2 = 0 then R else G)
                            else (if x % 2 = 0 then G else B))).map
              fun pair => bytes ++ pair)
        (some acc)
      = some (acc ++ (List.range W).flatMap fun x =>
          [(if y % 2 = 0 then (if x % 2 = 0 then R else G)
            else (if x % 2 = 0 then G else B)).toNat &&& 0xFF,
           ((if y % 2 = 0 then (if x % 2 = 0 then R else G)
             else (if x % 2 = 0 then G else B)).toNat >>> 8) &&& 0x03]) := by
    intro y
    apply foldl_bind_append
    intro x _ acc
    rw [hcolor x y]
    rfl
  have hmain : imageData R G B W H
      = some ([] ++ (List.range H).flatMap fun y => (List.range W).flatMap fun x =>
          [(if y % 2 = 0 then (if x % 2 = 0 then R else G)
            else (if x % 2 = 0 then G else B)).toNat &&& 0xFF,
           ((if y % 2 = 0 then (if x % 2 = 0 then R else G)
             else (if x % 2 = 0 then G else B)).toNat >>> 8) &&& 0x03]) := by
    unfold imageData
    apply foldl_bind_append
    intro y _ acc
    exact hrow y acc
  refine ⟨_, by rw [hmain], by simp, ?_⟩
  rw [List.nil_append] at hmain ⊢
  have hlen : ∀ y ∈ List.range H,
      ((List.range W).flatMap fun x =>
        [(if y % 2 = 0 then (if x % 2 = 0 then R else G)
          else (if x % 2 = 0 then G else B)).toNat &&& 0xFF,
         ((if y % 2 = 0 then (if x % 2 = 0 then R else G)
           else (if x % 2 = 0 then G else B)).toNat >>> 8) &&& 0x03]).length = W * 2 := by
    intro y _
    rw [show W * 2 = (List.range W).length * 2 by rw [List.length_range]]
    apply length_flatMap_const
    intro x _
    rfl
  rw [length_flatMap_const _ _ (W * 2) hlen, List.length_range]
  ring

/-- Witness for C4 at R = 1023, G = 512, B = 0, W = 4, H = 2. -/
theorem c4_frame_layout_witness :
    ∃ bs : List Nat,
      imageData 1023 512 0 4 2 = some bs
      ∧ bs = ((List.range 2).flatMap fun y => (List.range 4).flatMap fun x =>
          [(if y % 2 = 0 then (if x % 2 = 0 then (1023 : Int) else 512)
            else (if x % 2 = 0 then 512 else 0)).toNat &&& 0xFF,
           ((if y % 2 = 0 then (if x % 2 = 0 then (1023 : Int) else 512)
             else (if x % 2 = 0 then 512 else 0)).toNat >>> 8) &&& 0x03])
      ∧ bs.length = 4 * 2 * 2 :=
  c4_frame_layout 1023 512 0 4 2 (by decide) (by decide) (by decide) (by decide)
    (by decide) (by decide)

/-- Observable actions of the camera scripts: register writes (successful
or failing at the transport), blocking delays, and the external process
collaborators (driver unbind and rebind, dependent-service restart,
preview launch). -/
inductive Event
  | i2cWrite (reg val : Nat)
  | i2cWriteFail (reg val : Nat)
  | sleepMs (ms : Nat)
  | rmmod
  | modprobe
  | restartService
  | preview
  deriving DecidableEq

/-- Python exceptions relevant to the modelled control flow. -/
inductive Err
  | typeError
  | busError (reg : Nat)
  | valueError
  deriving DecidableEq

/-- How a modelled Python computation finished: normally, with an
uncaught exception, or by `sys.exit`. -/
inductive PyResult
  | ok
  | raised (e : Err)
  | exited (code : Nat)
  deriving DecidableEq

/-- A modelled computation: its event trace plus how it finished. -/
abbrev Comp := List Event × PyResult

/-- Sequencing of two statements: the second runs only when the first
finished normally; an exception or a `sys.exit` short-circuits. -/
def seqc (a b : Comp) : Comp :=
  match a.2 with
  | .ok => (a.1 ++ b.1, b.2)
  | _ => a

/-- A `try ... except Exception` block: the handler runs exactly when the
body raised (Python's `SystemExit` from `sys.exit` is a `BaseException`
and is not caught by `except Exception`). -/
def tryExcept (body handler : Comp) : Comp :=
  match body.2 with
  | .raised _ => (body.1 ++ handler.1, handler.2)
  | _ => body

/-- Outcome of the `sudo rmmod li_imx477` collaborator: success, failure
whose stderr contains "not currently loaded", or any other failure. -/
inductive RmmodOutcome
  | success
  | alreadyUnloaded
  | otherFailure
  deriving DecidableEq

/-- The external world a run executes against: the driver-unbind outcome,
which register writes fail at the transport, and whether the rebind and
service-restart collaborators succeed. -/
structure Env where
  rmmod : RmmodOutcome
  i2cFail : Nat → Bool
  modprobeOk : Bool
  restartOk : Bool

namespace ConfigCam

/-- `write_i2c` of `config_camera_rg10_rggb_output.py`: write the lsb byte
to the register and the msb byte to the next one; a transport failure is
printed and re-raised to the caller, skipping the rest of the pair. -/
def write_i2c (env : Env) (lsb msb regLsbAddr : Nat) : Comp :=
  if env.i2cFail regLsbAddr then
    ([.i2cWriteFail regLsbAddr lsb], .raised (.busError regLsbAddr))
  else if env.i2cFail (regLsbAddr + 1) then
    ([.i2cWrite regLsbAddr lsb, .i2cWriteFail (regLsbAddr + 1) msb],
     .raised (.busError (regLsbAddr + 1)))
  else
    ([.i2cWrite regLsbAddr lsb, .i2cWrite (regLsbAddr + 1) msb], .ok)

/-- The `sleep(0.1)` settle delay. -/
def sleep100 : Comp := ([.sleepMs 100], .ok)

/-- `send_to_camera` of `config_camera_rg10_rggb_output.py` (four
parameters): the four channel register pairs in R, G1, G2, B order, a
100 ms delay after each pair; any raised error propagates. -/
def send_to_camera (env : Env) (rBytes g1Bytes g2Bytes bBytes : Nat × Nat) : Comp :=
  seqc (write_i2c env rBytes.1 rBytes.2 0x602)
    (seqc sleep100
      (seqc (write_i2c env g1Bytes.1 g1Bytes.2 0x604)
        (seqc sleep100
          (seqc (write_i2c env g2Bytes.1 g2Bytes.2 0x606)
            (seqc sleep100
              (seqc (write_i2c env bBytes.1 bBytes.2 0x608) sleep100))))))

/-- An argument of a modelled Python call, either a plain integer or an
(lsb, msb) byte tuple. -/
inductive PyVal
  | int (n : Int)
  | pair (p : Nat × Nat)
  deriving DecidableEq

/-- A call to the four-parameter `send_to_camera` with an explicit
argument list: Python raises `TypeError` at the call site, before the
body runs, when the arity does not match. -/
def send_to_camera_call (env : Env) (args : List PyVal) : Comp :=
  match args with
  | [.pair r, .pair g1, .pair g2, .pair b] => send_to_camera env r g1 g2 b
  | _ => ([], .raised .typeError)

/-- `setup` of `config_camera_rg10_rggb_output.py`: `sudo rmmod li_imx477`
("not currently loaded" is accepted and execution continues; any other
failure prints a warning and calls `sys.exit(1)`), then a 100 ms bus-ready
delay and the enable-test-pattern pair 0x600 := 0x1, 0x601 := 0x0. -/
def setup (env : Env) : Comp :=
  match env.rmmod with
  | .otherFailure => ([.rmmod], .exited 1)
  | _ => seqc ([.rmmod], .ok) (seqc ([.sleepMs 100], .ok) (write_i2c env 0x1 0x0 0x600))

/-- `cleanup` of `config_camera_rg10_rggb_output.py`: `sudo modprobe
li_imx477` (failure exits 1 immediately), then `systemctl restart
nvargus-daemon` (failure exits 1). -/
def cleanup (env : Env) : Comp :=
  seqc ([.modprobe], if env.modprobeOk then .ok else .exited 1)
    ([.restartService], if env.restartOk then .ok else .exited 1)

/-- The `show` preview of `config_camera_rg10_rggb_output.py` (renamed:
`show` is reserved in Lean). -/
def showPreview : Comp := ([.preview], .ok)

/-- The intended hardware path, as composed in `main`: `setup` (driver
unbind plus enable-test-pattern pair) followed by the four channel pairs
of `send_to_camera`. -/
def setupThenSend (env : Env) (rBytes g1Bytes g2Bytes bBytes : Nat × Nat) : Comp :=
  seqc (setup env) (send_to_camera env rBytes g1Bytes g2Bytes bBytes)

/-- `main` of `config_camera_rg10_rggb_output.py` after argument
validation: convert the three colors (out of range would raise), then
`try: setup(); send_to_camera(0, 1); send_to_camera(rB, gB, gB, bB);
cleanup(); sleep(1); show() except Exception: cleanup(); sys.exit(1)`. -/
def main (env : Env) (r g b : Nat) : Comp :=
  match convert_10bit_to_16bit (↑r), convert_10bit_to_16bit (↑g),
      convert_10bit_to_16bit (↑b) with
  | some rB, some gB, some bB =>
    tryExcept
      (seqc (setup env)
        (seqc (send_to_camera_call env [.int 0, .int 1])
          (seqc (send_to_camera_call env [.pair rB, .pair gB, .pair gB, .pair bB])
            (seqc (cleanup env)
              (seqc ([.sleepMs 1000], .ok) showPreview)))))
      (seqc (cleanup env) ([], .exited 1))
  | _, _, _ => ([], .raised .valueError)

end ConfigCam

namespace SendRg10

/-- `write_i2c` of `send_rg10_to_camera.py`: the transport failure is
caught and printed but NOT re-raised — the caller continues. -/
def write_i2c (env : Env) (lsb msb regLsbAddr : Nat) : Comp :=
  if env.i2cFail regLsbAddr then
    ([.i2cWriteFail regLsbAddr lsb], .ok)
  else if env.i2cFail (regLsbAddr + 1) then
    ([.i2cWrite regLsbAddr lsb, .i2cWriteFail (regLsbAddr + 1) msb], .ok)
  else
    ([.i2cWrite regLsbAddr lsb, .i2cWrite (regLsbAddr + 1) msb], .ok)

/-- `send_to_camera` of `send_rg10_to_camera.py`: the four channel pairs
back to back, each through the swallowing `write_i2c`, no delays. -/
def send_to_camera (env : Env) (rBytes g1Bytes g2Bytes bBytes : Nat × Nat) : Comp :=
  seqc (write_i2c env rBytes.1 rBytes.2 0x602)
    (seqc (write_i2c env g1Bytes.1 g1Bytes.2 0x604)
      (seqc (write_i2c env g2Bytes.1 g2Bytes.2 0x606)
        (write_i2c env bBytes.1 bBytes.2 0x608)))

end SendRg10

/-- The environment where every collaborator and every register write
succeeds. -/
def envOk : Env :=
  { rmmod := .success, i2cFail := fun _ => false, modprobeOk := true, restartOk := true }

/-- Whether a trace contains no failed register write. -/
def cleanEvents (t : List Event) : Bool :=
  t.all fun e =>
    match e with
    | .i2cWriteFail _ _ => false
    | _ => true

theorem cleanEvents_append (s t : List Event) :
    cleanEvents (s ++ t) = (cleanEvents s && cleanEvents t) := by
  simp [cleanEvents]

/-- The abort discipline of a register transaction: if it finished
normally, no write failed; if it raised, the trace is failure-free
events followed by the single failing attempt, and nothing was attempted
after it. -/
def Aborts (c : Comp) : Prop :=
  match c.2 with
  | .ok => cleanEvents c.1 = true
  | .raised _ => ∃ t1 reg v, c.1 = t1 ++ [.i2cWriteFail reg v] ∧ cleanEvents t1 = true
  | .exited _ => True

theorem aborts_seqc {a b : Comp} (ha : Aborts a) (hb : Aborts b) :
    Aborts (seqc a b) := by
  obtain ⟨ta, ra⟩ := a
  obtain ⟨tb, rb⟩ := b
  cases ra with
  | ok =>
    cases rb with
    | ok =>
      have ha' : cleanEvents ta = true := ha
      have hb' : cleanEvents tb = true := hb
      show cleanEvents (ta ++ tb) = true
      rw [cleanEvents_append, ha', hb']
      rfl
    | raised e =>
      obtain ⟨t1, reg, v, het, hcl⟩ := hb
      have ha' : cleanEvents ta = true := ha
      have het' : tb = t1 ++ [Event.i2cWriteFail reg v] := het
      refine ⟨ta ++ t1, reg, v, ?_, ?_⟩
      · show ta ++ tb = ta ++ t1 ++ [Event.i2cWriteFail reg v]
        rw [het', List.append_assoc]
      · rw [cleanEvents_append, ha', hcl]
        rfl
    | exited c => trivial
  | raised e => exact ha
  | exited c => trivial

theorem aborts_config_write_i2c (env : Env) (l m reg : Nat) :
    Aborts (ConfigCam.write_i2c env l m reg) := by
  unfold ConfigCam.write_i2c
  split
  · exact ⟨[], reg, l, rfl, rfl⟩
  · split
    · exact ⟨[Event.i2cWrite reg l], reg + 1, m, rfl, rfl⟩
    · show cleanEvents [Event.i2cWrite reg l, Event.i2cWrite (reg + 1) m] = true
      rfl

theorem aborts_sleep100 : Aborts ConfigCam.sleep100 := rfl

/-- C6 (amended): in config_camera_rg10_rggb_output.py any failed register
write re-raises to the caller and no later write of the transaction is
attempted — for the channel transaction and for the enable-test-pattern
write of setup alike. -/
theorem c6_config_write_failure_aborts_transaction
    (env : Env) (rBytes g1Bytes g2Bytes bBytes : Nat × Nat) :
    Aborts (ConfigCam.send_to_camera env rBytes g1Bytes g2Bytes bBytes)
    ∧ Aborts (ConfigCam.setup env) := by
  constructor
  · unfold ConfigCam.send_to_camera
    exact aborts_seqc (aborts_config_write_i2c env rBytes.1 rBytes.2 0x602)
      (aborts_seqc aborts_sleep100
        (aborts_seqc (aborts_config_write_i2c env g1Bytes.1 g1Bytes.2 0x604)
          (aborts_seqc aborts_sleep100
            (aborts_seqc (aborts_config_write_i2c env g2Bytes.1 g2Bytes.2 0x606)
              (aborts_seqc aborts_sleep100
                (aborts_seqc (aborts_config_write_i2c env bBytes.1 bBytes.2 0x608)
                  aborts_sleep100))))))
  · unfold ConfigCam.setup
    rcases hrm : env.rmmod with _ | _ | _
    · exact aborts_seqc rfl (aborts_seqc rfl (aborts_config_write_i2c env 0x1 0x0 0x600))
    · exact aborts_seqc rfl (aborts_seqc rfl (aborts_config_write_i2c env 0x1 0x0 0x600))
    · trivial

/-- The environment where exactly the write to register 0x602 fails at
the transport and everything else succeeds. -/
def envFailR : Env :=
  { rmmod := .success, i2cFail := fun reg => reg == 0x602,
    modprobeOk := true, restartOk := true }

/-- C6 counterexample: in send_rg10_to_camera.py a transport failure on
the R-pair write is swallowed — the remaining channel writes are still
attempted and the transaction reports success to the caller. -/
theorem c6_sendrg10_swallows_write_failure :
    (SendRg10.send_to_camera envFailR (255, 3) (0, 2) (0, 2) (0, 0)).1
      = [.i2cWriteFail 0x602 255, .i2cWrite 0x604 0, .i2cWrite 0x605 2,
         .i2cWrite 0x606 0, .i2cWrite 0x607 2, .i2cWrite 0x608 0, .i2cWrite 0x609 0]
    ∧ (SendRg10.send_to_camera envFailR (255, 3) (0, 2) (0, 2) (0, 0)).2 = .ok := by
  constructor
  · rfl
  · rfl

/-- Every outcome of `setup`: unbind hard-failure exit, transport failure
on either half of the enable pair, or full success. -/
theorem setup_cases (env : Env) :
    (env.rmmod = .otherFailure ∧ ConfigCam.setup env = ([.rmmod], .exited 1))
    ∨ ConfigCam.setup env
        = ([.rmmod, .sleepMs 100, .i2cWriteFail 0x600 0x1], .raised (.busError 0x600))
    ∨ ConfigCam.setup env
        = ([.rmmod, .sleepMs 100, .i2cWrite 0x600 0x1, .i2cWriteFail 0x601 0x0],
           .raised (.busError 0x601))
    ∨ ConfigCam.setup env
        = ([.rmmod, .sleepMs 100, .i2cWrite 0x600 0x1, .i2cWrite 0x601 0x0], .ok) := by
  rcases hrm : env.rmmod with _ | _ | _
  · rcases h0 : env.i2cFail 0x600 with _ | _
    · rcases h1 : env.i2cFail 0x601 with _ | _
      · refine Or.inr (Or.inr (Or.inr ?_))
        simp [ConfigCam.setup, ConfigCam.write_i2c, seqc, hrm, h0, h1]
      · refine Or.inr (Or.inr (Or.inl ?_))
        simp [ConfigCam.setup, ConfigCam.write_i2c, seqc, hrm, h0, h1]
    · refine Or.inr (Or.inl ?_)
      simp [ConfigCam.setup, ConfigCam.write_i2c, seqc, hrm, h0]
  · rcases h0 : env.i2cFail 0x600 with _ | _
    · rcases h1 : env.i2cFail 0x601 with _ | _
      · refine Or.inr (Or.inr (Or.inr ?_))
        simp [ConfigCam.setup, ConfigCam.write_i2c, seqc, hrm, h0, h1]
      · refine Or.inr (Or.inr (Or.inl ?_))
        simp [ConfigCam.setup, ConfigCam.write_i2c, seqc, hrm, h0, h1]
    · refine Or.inr (Or.inl ?_)
      simp [ConfigCam.setup, ConfigCam.write_i2c, seqc, hrm, h0]
  · exact Or.inl ⟨rfl, by simp [ConfigCam.setup, hrm]⟩

/-- Every outcome of `cleanup`: rebind failure exits 1 without restarting
the service, restart failure exits 1, or both collaborators succeed. -/
theorem cleanup_cases (env : Env) :
    (env.modprobeOk = false ∧ ConfigCam.cleanup env = ([.modprobe], .exited 1))
    ∨ (env.modprobeOk = true ∧ env.restartOk = false
        ∧ ConfigCam.cleanup env = ([.modprobe, .restartService], .exited 1))
    ∨ (env.modprobeOk = true ∧ env.restartOk = true
        ∧ ConfigCam.cleanup env = ([.modprobe, .restartService], .ok)) := by
  rcases hm : env.modprobeOk with _ | _
  · exact Or.inl ⟨rfl, by simp [ConfigCam.cleanup, seqc, hm]⟩
  · rcases hs : env.restartOk with _ | _
    · exact Or.inr (Or.inl ⟨rfl, rfl, by simp [ConfigCam.cleanup, seqc, hm, hs]⟩)
    · exact Or.inr (Or.inr ⟨rfl, rfl, by simp [ConfigCam.cleanup, seqc, hm, hs]⟩)

/-- With validated colors, `main` reduces to: run `setup`, raise
`TypeError` at the two-argument `send_to_camera(0, 1)` call, and handle
by `cleanup(); sys.exit(1)` — the four-tuple call is dead code. -/
theorem main_raises_before_send (env : Env) (r g b : Nat) (rB gB bB : Nat × Nat)
    (hrB : convert_10bit_to_16bit (↑r) = some rB)
    (hgB : convert_10bit_to_16bit (↑g) = some gB)
    (hbB : convert_10bit_to_16bit (↑b) = some bB) :
    ConfigCam.main env r g b
      = tryExcept (seqc (ConfigCam.setup env) ([], .raised .typeError))
          (seqc (ConfigCam.cleanup env) ([], .exited 1)) := by
  unfold ConfigCam.main
  rw [hrB, hgB, hbB]
  rfl

/-- Whether a trace touches none of the channel registers 0x602-0x609
(neither successfully nor as a failed attempt). -/
def noChannelWrites (t : List Event) : Bool :=
  t.all fun e =>
    match e with
    | .i2cWrite reg _ => decide (reg < 0x602)
    | .i2cWriteFail reg _ => decide (reg < 0x602)
    | _ => true

/-- C3: the two-argument call `send_to_camera(0, 1)` raises an arity
`TypeError` before any channel-register write; consequently no channel
register (0x602-0x609) is ever touched by `main`, and whenever the
driver unbind did not hard-fail, `main` reaches the exception handler,
invokes `cleanup`, and exits with status 1. -/
theorem c3_arity_error_determines_outcome (env : Env) (r g b : Nat)
    (hr : r ≤ 1023) (hg : g ≤ 1023) (hb : b ≤ 1023) :
    ConfigCam.send_to_camera_call env [.int 0, .int 1] = ([], .raised .typeError)
    ∧ noChannelWrites (ConfigCam.main env r g b).1 = true
    ∧ (env.rmmod ≠ .otherFailure →
        Event.modprobe ∈ (ConfigCam.main env r g b).1
        ∧ (ConfigCam.main env r g b).2 = .exited 1) := by
  have hmain := main_raises_before_send env r g b _ _ _
    (convert_10bit_natCast r hr) (convert_10bit_natCast g hg) (convert_10bit_natCast b hb)
  refine ⟨rfl, ?_, ?_⟩
  · rw [hmain]
    rcases setup_cases env with ⟨_, h⟩ | h | h | h <;>
      rcases cleanup_cases env with ⟨_, hc⟩ | ⟨_, _, hc⟩ | ⟨_, _, hc⟩ <;>
        rw [h, hc] <;> decide
  · intro hrm
    rw [hmain]
    rcases setup_cases env with ⟨ho, h⟩ | h | h | h
    · exact absurd ho hrm
    all_goals
      rcases cleanup_cases env with ⟨_, hc⟩ | ⟨_, _, hc⟩ | ⟨_, _, hc⟩ <;>
        rw [h, hc] <;> exact ⟨by decide, by decide⟩

/-- Witness for C3 in the all-success environment with R=1023, G=512, B=0. -/
theorem c3_arity_error_determines_outcome_witness :
    ConfigCam.send_to_camera_call envOk [.int 0, .int 1] = ([], .raised .typeError)
    ∧ noChannelWrites (ConfigCam.main envOk 1023 512 0).1 = true
    ∧ (envOk.rmmod ≠ .otherFailure →
        Event.modprobe ∈ (ConfigCam.main envOk 1023 512 0).1
        ∧ (ConfigCam.main envOk 1023 512 0).2 = .exited 1) :=
  c3_arity_error_determines_outcome envOk 1023 512 0 (by decide) (by decide) (by decide)

/-- The (register, byte) list of the successful writes in a trace. -/
def writesOf (t : List Event) : List (Nat × Nat) :=
  t.filterMap fun e =>
    match e with
    | .i2cWrite reg v => some (reg, v)
    | _ => none

/-- C5 (amended): with every write succeeding, the hardware path
setup-then-send issues exactly the 10 single-byte register writes
0x600..0x609 in address-ascending, channel-order sequence (enable pair
first, then R, G1, G2, B), with a 100 ms settle delay after each of the
four channel pairs; the enable pair is preceded by a 100 ms bus-ready
delay but is not followed by one. -/
theorem c5_register_write_sequence (r g b : Nat)
    (hr : r ≤ 1023) (hg : g ≤ 1023) (hb : b ≤ 1023) :
    convert_10bit_to_16bit (↑r) = some (r &&& 0xFF, (r >>> 8) &&& 0x03)
    ∧ convert_10bit_to_16bit (↑g) = some (g &&& 0xFF, (g >>> 8) &&& 0x03)
    ∧ convert_10bit_to_16bit (↑b) = some (b &&& 0xFF, (b >>> 8) &&& 0x03)
    ∧ ConfigCam.setupThenSend envOk (r &&& 0xFF, (r >>> 8) &&& 0x03)
        (g &&& 0xFF, (g >>> 8) &&& 0x03) (g &&& 0xFF, (g >>> 8) &&& 0x03)
        (b &&& 0xFF, (b >>> 8) &&& 0x03)
      = ([.rmmod, .sleepMs 100,
          .i2cWrite 0x600 0x1, .i2cWrite 0x601 0x0,
          .i2cWrite 0x602 (r &&& 0xFF), .i2cWrite 0x603 ((r >>> 8) &&& 0x03), .sleepMs 100,
          .i2cWrite 0x604 (g &&& 0xFF), .i2cWrite 0x605 ((g >>> 8) &&& 0x03), .sleepMs 100,
          .i2cWrite 0x606 (g &&& 0xFF), .i2cWrite 0x607 ((g >>> 8) &&& 0x03), .sleepMs 100,
          .i2cWrite 0x608 (b &&& 0xFF), .i2cWrite 0x609 ((b >>> 8) &&& 0x03), .sleepMs 100],
         .ok)
    ∧ writesOf (ConfigCam.setupThenSend envOk (r &&& 0xFF, (r >>> 8) &&& 0x03)
        (g &&& 0xFF, (g >>> 8) &&& 0x03) (g &&& 0xFF, (g >>> 8) &&& 0x03)
        (b &&& 0xFF, (b >>> 8) &&& 0x03)).1
      = [(0x600, 0x1), (0x601, 0x0),
         (0x602, r &&& 0xFF), (0x603, (r >>> 8) &&& 0x03),
         (0x604, g &&& 0xFF), (0x605, (g >>> 8) &&& 0x03),
         (0x606, g &&& 0xFF), (0x607, (g >>> 8) &&& 0x03),
         (0x608, b &&& 0xFF), (0x609, (b >>> 8) &&& 0x03)] :=
  ⟨convert_10bit_natCast r hr, convert_10bit_natCast g hg, convert_10bit_natCast b hb,
    rfl, rfl⟩

/-- Witness for C5 at R=1023, G=512, B=0. -/
theorem c5_register_write_sequence_witness :
    convert_10bit_to_16bit ((1023 : Nat) : Int) = some (255, 3)
    ∧ convert_10bit_to_16bit ((512 : Nat) : Int) = some (0, 2)
    ∧ convert_10bit_to_16bit ((0 : Nat) : Int) = some (0, 0)
    ∧ ConfigCam.setupThenSend envOk (255, 3) (0, 2) (0, 2) (0, 0)
      = ([.rmmod, .sleepMs 100,
          .i2cWrite 0x600 0x1, .i2cWrite 0x601 0x0,
          .i2cWrite 0x602 255, .i2cWrite 0x603 3, .sleepMs 100,
          .i2cWrite 0x604 0, .i2cWrite 0x605 2, .sleepMs 100,
          .i2cWrite 0x606 0, .i2cWrite 0x607 2, .sleepMs 100,
          .i2cWrite 0x608 0, .i2cWrite 0x609 0, .sleepMs 100], .ok)
    ∧ writesOf (ConfigCam.setupThenSend envOk (255, 3) (0, 2) (0, 2) (0, 0)).1
      = [(0x600, 0x1), (0x601, 0x0), (0x602, 255), (0x603, 3), (0x604, 0), (0x605, 2),
         (0x606, 0), (0x607, 2), (0x608, 0), (0x609, 0)] :=
  c5_register_write_sequence 1023 512 0 (by decide) (by decide) (by decide)

/-- Whether every msb-half register write (odd register address) is
immediately followed by a 100 ms settle delay, as the claim's "delay
after each register pair before proceeding" requires. -/
def settleAfterPairs (t : List Event) : Bool :=
  (List.range t.length).all fun i =>
    match t.get? i with
    | some (.i2cWrite reg _) =>
      if reg % 2 == 1 then t.get? (i + 1) == some (.sleepMs 100) else true
    | _ => true

/-- C5 counterexample: in the all-success run with R=1023, G=512, B=0 the
enable pair (write to 0x601 at position 3) is immediately followed by the
first channel write (0x602 at position 4), not by a settle delay — so it
is false that a 100 ms delay follows each register pair. -/
theorem c5_no_delay_after_enable_pair_counterexample :
    (ConfigCam.setupThenSend envOk (255, 3) (0, 2) (0, 2) (0, 0)).1.get? 3
      = some (.i2cWrite 0x601 0x0)
    ∧ (ConfigCam.setupThenSend envOk (255, 3) (0, 2) (0, 2) (0, 0)).1.get? 4
      = some (.i2cWrite 0x602 255)
    ∧ settleAfterPairs (ConfigCam.setupThenSend envOk (255, 3) (0, 2) (0, 2) (0, 0)).1
      = false := by
  refine ⟨rfl, rfl, ?_⟩
  decide

/-- The environment where the driver rebind (`modprobe`) fails during
cleanup and everything else succeeds. -/
def envNoRebind : Env :=
  { rmmod := .success, i2cFail := fun _ => false, modprobeOk := false, restartOk := true }

/-- C7 counterexample: a run that enables the test pattern and then fails
can exit without ever invoking the dependent-service-restart collaborator:
when the driver rebind fails, cleanup exits 1 before restarting the
service, so the restart is invoked zero times, not exactly once. -/
theorem c7_restart_not_invoked_counterexample :
    Event.i2cWrite 0x600 0x1 ∈ (ConfigCam.main envNoRebind 1023 512 0).1
    ∧ (ConfigCam.main envNoRebind 1023 512 0).2 = .exited 1
    ∧ (ConfigCam.main envNoRebind 1023 512 0).1.count .modprobe = 1
    ∧ (ConfigCam.main envNoRebind 1023 512 0).1.count .restartService = 0 := by
  decide

/-- C7 (amended): whenever the driver unbind does not hard-fail, the run
fails after setup (the arity TypeError at the latest), invokes the
driver-rebind collaborator exactly once, invokes the dependent-service
restart exactly once provided the rebind succeeded, and exits with
status 1. -/
theorem c7_cleanup_collaborators_invoked_once (env : Env) (r g b : Nat)
    (hr : r ≤ 1023) (hg : g ≤ 1023) (hb : b ≤ 1023)
    (hrm : env.rmmod ≠ .otherFailure) :
    (ConfigCam.main env r g b).1.count .modprobe = 1
    ∧ (env.modprobeOk = true → (ConfigCam.main env r g b).1.count .restartService = 1)
    ∧ (ConfigCam.main env r g b).2 = .exited 1 := by
  have hmain := main_raises_before_send env r g b _ _ _
    (convert_10bit_natCast r hr) (convert_10bit_natCast g hg) (convert_10bit_natCast b hb)
  rw [hmain]
  rcases setup_cases env with ⟨ho, h⟩ | h | h | h
  · exact absurd ho hrm
  all_goals
    rcases cleanup_cases env with ⟨hm, hc⟩ | ⟨hm, _, hc⟩ | ⟨hm, _, hc⟩ <;>
      rw [h, hc] <;>
      refine ⟨by decide, fun hmp => ?_, by decide⟩ <;>
      first
        | (rw [hm] at hmp; exact absurd hmp (by decide))
        | decide

/-- Witness for C7 in the all-success environment with R=1023, G=512, B=0. -/
theorem c7_cleanup_collaborators_invoked_once_witness :
    (ConfigCam.main envOk 1023 512 0).1.count .modprobe = 1
    ∧ (envOk.modprobeOk = true → (ConfigCam.main envOk 1023 512 0).1.count .restartService = 1)
    ∧ (ConfigCam.main envOk 1023 512 0).2 = .exited 1 :=
  c7_cleanup_collaborators_invoked_once envOk 1023 512 0 (by decide) (by decide) (by decide)
    (by decide)

/-- C9: an unbind that reports the driver already detached is treated
exactly like a successful unbind (the whole run proceeds identically),
while any other unbind failure terminates the run — exit status 1 — with
a bare [rmmod] trace: no I2C register write was attempted and no cleanup
is needed. -/
theorem c9_unbind_failure_paths (env : Env) (r g b : Nat)
    (hr : r ≤ 1023) (hg : g ≤ 1023) (hb : b ≤ 1023) :
    ConfigCam.main { env with rmmod := .alreadyUnloaded } r g b
      = ConfigCam.main { env with rmmod := .success } r g b
    ∧ ConfigCam.main { env with rmmod := .otherFailure } r g b = ([.rmmod], .exited 1) := by
  have h1 := convert_10bit_natCast r hr
  have h2 := convert_10bit_natCast g hg
  have h3 := convert_10bit_natCast b hb
  constructor
  · unfold ConfigCam.main
    rw [h1, h2, h3]
    rfl
  · unfold ConfigCam.main
    rw [h1, h2, h3]
    rfl

/-- Witness for C9 over the all-success environment with R=1023, G=512, B=0. -/
theorem c9_unbind_failure_paths_witness :
    ConfigCam.main { envOk with rmmod := .alreadyUnloaded } 1023 512 0
      = ConfigCam.main { envOk with rmmod := .success } 1023 512 0
    ∧ ConfigCam.main { envOk with rmmod := .otherFailure } 1023 512 0
      = ([.rmmod], .exited 1) :=
  c9_unbind_failure_paths envOk 1023 512 0 (by decide) (by decide) (by decide)
